import Mathlib

/-!
Verification of the anta network-state checks against their natural-language
specification.  The Python check functions from src/anta/tests are shallowly
embedded as pure Lean functions: the eAPI session is modelled by the outcome of
the single runCmds call a check performs (a well-formed reply or a raised
exception), JSON replies are modelled by structured records whose fallible
dictionary lookups are association-list lookups, and each check returns the
final TestResult (or the exception that escaped it) together with the list of
commands it issued and the sequence of status values assigned to its result.
-/

/--
Python exceptions that occur in the embedded checks.  appError models
jsonrpc.AppError (a remote/RPC error), keyError a dictionary lookup failure,
socketTimeout a transport timeout; indexError, valueError and nameError arise
inside verify_field_notice_44_resolution from list indexing, int() parsing and
an unbound local variable.  A session raise of keyError also stands for the
data-shape KeyErrors raised while the check reads a malformed reply, since the
source handles both through the same except clause.
-/
inductive PyExn where
  | appError (msg : String)
  | keyError (key : String)
  | socketTimeout (msg : String)
  | indexError
  | valueError (msg : String)
  | nameError (name : String)
deriving DecidableEq

/-- the single-quote character, used by the Python repr of strings -/
def pyQuote : String := String.singleton (Char.ofNat 39)

/-- Python str(e) for the exceptions the checks append to their messages:
str(KeyError(k)) is the repr of k, str(AppError(m)) and str(socket.timeout(m))
are the plain message. -/
def PyExn.toStr : PyExn → String
  | .appError m => m
  | .keyError k => pyQuote ++ k ++ pyQuote
  | .socketTimeout m => m
  | .indexError => "list index out of range"
  | .valueError m => m
  | .nameError n => "local variable " ++ pyQuote ++ n ++ pyQuote ++ " referenced before assignment"

/-- one runCmds invocation: device.session.runCmds(version, commands, format) -/
structure CmdCall where
  version : Nat
  cmds : List String
  fmt : String
deriving DecidableEq

/--
Modelled from the spec: TestResult from anta.result_manager.models, which is
not under src/ (only its callers are).  Per spec section 3 it carries a device
identity, a test identity, a status among unset, skipped, success, failure,
error, and an append-only list of message strings; the is_success, is_failure,
is_error and is_skipped helpers used by the checks set the status and append
the optional message (embedded here as withStatus).
-/
structure TestResult where
  host : String
  test : String
  result : String := "unset"
  messages : List String := []
deriving DecidableEq

/-- set the status and append the optional message (the body of the is_success,
is_failure, is_error, is_skipped helpers and of the direct assignments
result.result = s in software.py) -/
def TestResult.withStatus (r : TestResult) (s : String) (msg : Option String) : TestResult :=
  { r with result := s, messages := r.messages ++ msg.toList }

instance {ε α : Type} [DecidableEq ε] [DecidableEq α] : DecidableEq (Except ε α)
  | .error a, .error b =>
    if h : a = b then .isTrue (h ▸ rfl) else .isFalse fun he => h (by injection he)
  | .error _, .ok _ => .isFalse fun he => by injection he
  | .ok _, .error _ => .isFalse fun he => by injection he
  | .ok a, .ok b =>
    if h : a = b then .isTrue (h ▸ rfl) else .isFalse fun he => h (by injection he)

/--
Observable outcome of one embedded check execution: the returned TestResult or
the exception that escaped the function, the runCmds calls issued, and the
trace of status values assigned to the result, in assignment order.
-/
structure Outcome where
  res : Except PyExn TestResult
  calls : List CmdCall
  trace : List String
deriving DecidableEq

/-- Python ", ".join -/
def joinComma : List String → String
  | [] => ""
  | [x] => x
  | x :: y :: xs => x ++ ", " ++ joinComma (y :: xs)

/-- simplified Python repr of a string: the string between single quotes
(quote-style switching and escaping are not modelled) -/
def pyStrRepr (s : String) : String := pyQuote ++ s ++ pyQuote

/-- Python repr of a list of strings -/
def pyStrListRepr (xs : List String) : String :=
  "[" ++ joinComma (xs.map pyStrRepr) ++ "]"

/-! BGP response model.  A reply to the bgp summary commands is a dict with a
vrfs key mapping vrf names to entries whose peers key maps peer names to peer
records.  Dicts are embedded as association lists (key order is the dict
iteration order; a list representing a dict has no duplicate keys); lookups
that the source performs on data that can be absent (a vrf name) are fallible
association-list lookups. -/

/-- one entry of the peers dict of a vrf in a bgp summary reply -/
structure PeerEntry where
  peerState : String
  inMsgQueue : Int
  outMsgQueue : Int
deriving DecidableEq

/-- one entry of the vrfs dict of a bgp summary reply -/
structure VrfEntry where
  peers : List (String × PeerEntry)
deriving DecidableEq

/-- a bgp summary reply, response[0] of the runCmds result -/
structure BgpResp where
  vrfs : List (String × VrfEntry)
deriving DecidableEq

/-- the condition of the source on an unhealthy peer: state not Established or
a non-empty message queue -/
def bgpPeerBad (p : PeerEntry) : Bool :=
  p.peerState ≠ "Established" || p.inMsgQueue ≠ 0 || p.outMsgQueue ≠ 0

/-- Python repr of the per-peer info dict built by the bgp state checks -/
def renderPeerEntry (p : PeerEntry) : String :=
  "\x7b" ++ pyStrRepr "peerState" ++ ": " ++ pyStrRepr p.peerState ++ ", "
    ++ pyStrRepr "inMsgQueue" ++ ": " ++ toString p.inMsgQueue ++ ", "
    ++ pyStrRepr "outMsgQueue" ++ ": " ++ toString p.outMsgQueue ++ "\x7d"

/-- Python repr of a dict from peer name to peer info -/
def renderPeerDict (ps : List (String × PeerEntry)) : String :=
  "\x7b" ++ joinComma (ps.map fun pe => pyStrRepr pe.1 ++ ": " ++ renderPeerEntry pe.2) ++ "\x7d"

/-- Python repr of the state_issue dict from vrf name to peer dict -/
def renderStateIssue (m : List (String × List (String × PeerEntry))) : String :=
  "\x7b" ++ joinComma (m.map fun ve => pyStrRepr ve.1 ++ ": " ++ renderPeerDict ve.2) ++ "\x7d"

/-- the state_issue accumulation of the bgp state checks: for every vrf, the
sub-dict of its unhealthy peers, keeping only vrfs that have one (on
duplicate-free key lists this filtering equals the setdefault/update loop of
the source) -/
def stateIssue (vrfs : List (String × VrfEntry)) : List (String × List (String × PeerEntry)) :=
  vrfs.filterMap fun ve =>
    let bad := ve.2.peers.filter fun pe => bgpPeerBad pe.2
    if bad.isEmpty then none else some (ve.1, bad)

/-- the exception classes caught by the checks in bgp.py and vxlan.py:
(jsonrpc.AppError, KeyError, socket.timeout) -/
def caughtBgp : PyExn → Bool
  | .appError _ => true
  | .keyError _ => true
  | .socketTimeout _ => true
  | _ => false

/-- the exception classes caught by the TestResult-returning checks in
software.py: (jsonrpc.AppError, KeyError) -/
def caughtSw : PyExn → Bool
  | .appError _ => true
  | .keyError _ => true
  | _ => false

/-- embedding of verify_bgp_ipv4_unicast_state from src/anta/tests/routing/bgp.py
(the body of the function; the check_bgp_family_enable decorator, which is not
under src/, only adds a prior skip precondition and is not modelled) -/
def verify_bgp_ipv4_unicast_state (host : String) (sess : Except PyExn BgpResp) : Outcome :=
  let r0 : TestResult := { host := host, test := "verify_bgp_ipv4_unicast_state" }
  let call : CmdCall := ⟨1, ["show bgp ipv4 unicast summary vrf all"], "json"⟩
  match sess with
  | .error e =>
    if caughtBgp e then
      { res := .ok (r0.withStatus "error" (some e.toStr)), calls := [call], trace := ["error"] }
    else
      { res := .error e, calls := [call], trace := [] }
  | .ok resp =>
    let issue := stateIssue resp.vrfs
    if issue.isEmpty then
      { res := .ok (r0.withStatus "success" none), calls := [call], trace := ["success"] }
    else
      { res := .ok (r0.withStatus "failure"
          (some ("Some IPv4 Unicast BGP Peer are not up: " ++ renderStateIssue issue))),
        calls := [call], trace := ["failure"] }

/-- embedding of verify_bgp_ipv6_unicast_state from src/anta/tests/routing/bgp.py -/
def verify_bgp_ipv6_unicast_state (host : String) (sess : Except PyExn BgpResp) : Outcome :=
  let r0 : TestResult := { host := host, test := "verify_bgp_ipv6_unicast_state" }
  let call : CmdCall := ⟨1, ["show bgp ipv6 unicast summary vrf all"], "json"⟩
  match sess with
  | .error e =>
    if caughtBgp e then
      { res := .ok (r0.withStatus "error" (some e.toStr)), calls := [call], trace := ["error"] }
    else
      { res := .error e, calls := [call], trace := [] }
  | .ok resp =>
    let issue := stateIssue resp.vrfs
    if issue.isEmpty then
      { res := .ok (r0.withStatus "success" none), calls := [call], trace := ["success"] }
    else
      { res := .ok (r0.withStatus "failure"
          (some ("Some IPv6 Unicast BGP Peer are not up: " ++ renderStateIssue issue))),
        calls := [call], trace := ["failure"] }

/-- embedding of verify_bgp_ipv4_unicast_count from src/anta/tests/routing/bgp.py.
The number parameter is an Option so that a missing parameter (Python None) can
be passed; the guard mirrors the Python falsiness test "if not number or not
vrf" (None, 0 and the empty string are falsy). -/
def verify_bgp_ipv4_unicast_count (host : String) (number : Option Int) (vrf : String)
    (sess : Except PyExn BgpResp) : Outcome :=
  let r0 : TestResult := { host := host, test := "verify_bgp_ipv4_unicast_count" }
  let skipped : Outcome :=
    { res := .ok (r0.withStatus "skipped"
        (some "verify_bgp_ipv4_unicast_count could not run because number of vrf was not supplied")),
      calls := [], trace := ["skipped"] }
  match number with
  | none => skipped
  | some n =>
    if n = 0 ∨ vrf = "" then skipped
    else
      let call : CmdCall := ⟨1, ["show bgp ipv4 unicast summary vrf " ++ vrf], "json"⟩
      match sess with
      | .error e =>
        if caughtBgp e then
          { res := .ok (r0.withStatus "error" (some e.toStr)), calls := [call], trace := ["error"] }
        else
          { res := .error e, calls := [call], trace := [] }
      | .ok resp =>
        match List.lookup vrf resp.vrfs with
        | none =>
          { res := .ok (r0.withStatus "error" (some (PyExn.keyError vrf).toStr)),
            calls := [call], trace := ["error"] }
        | some ent =>
          let peer_number : Int := ent.peers.length
          let peer_state_issue := ent.peers.filter fun pe => bgpPeerBad pe.2
          if peer_number = n ∨ ¬ peer_state_issue.isEmpty then
            { res := .ok (r0.withStatus "success" none), calls := [call], trace := ["success"] }
          else
            let r1 := r0.withStatus "failure"
              (some ("Expecting " ++ toString n ++ " BGP peer in vrf " ++ vrf
                ++ " and got " ++ toString peer_number))
            if ¬ peer_state_issue.isEmpty then
              { res := .ok (r1.withStatus "failure"
                  (some ("Some IPv4 Unicast BGP Peer are not up: " ++ renderPeerDict peer_state_issue))),
                calls := [call], trace := ["failure", "failure"] }
            else
              { res := .ok r1, calls := [call], trace := ["failure"] }

/-- embedding of verify_bgp_evpn_state from src/anta/tests/routing/bgp.py -/
def verify_bgp_evpn_state (host : String) (sess : Except PyExn BgpResp) : Outcome :=
  let r0 : TestResult := { host := host, test := "verify_bgp_evpn_state" }
  let call : CmdCall := ⟨1, ["show bgp evpn summary"], "json"⟩
  match sess with
  | .error e =>
    if caughtBgp e then
      { res := .ok (r0.withStatus "error" (some e.toStr)), calls := [call], trace := ["error"] }
    else
      { res := .error e, calls := [call], trace := [] }
  | .ok resp =>
    match List.lookup "default" resp.vrfs with
    | none =>
      { res := .ok (r0.withStatus "error" (some (PyExn.keyError "default").toStr)),
        calls := [call], trace := ["error"] }
    | some ent =>
      let non_established_peers := (ent.peers.filter fun pe => pe.2.peerState ≠ "Established").map Prod.fst
      if non_established_peers.isEmpty then
        { res := .ok (r0.withStatus "success" none), calls := [call], trace := ["success"] }
      else
        { res := .ok (r0.withStatus "failure"
            (some ("The following EVPN peers are not established: " ++ pyStrListRepr non_established_peers))),
          calls := [call], trace := ["failure"] }

/-- embedding of verify_bgp_evpn_count from src/anta/tests/routing/bgp.py -/
def verify_bgp_evpn_count (host : String) (number : Option Int) (sess : Except PyExn BgpResp) : Outcome :=
  let r0 : TestResult := { host := host, test := "verify_bgp_evpn_count" }
  let skipped : Outcome :=
    { res := .ok (r0.withStatus "skipped"
        (some "verify_bgp_evpn_count could not run because number was not supplied.")),
      calls := [], trace := ["skipped"] }
  match number with
  | none => skipped
  | some n =>
    if n = 0 then skipped
    else
      let call : CmdCall := ⟨1, ["show bgp evpn summary"], "json"⟩
      match sess with
      | .error e =>
        if caughtBgp e then
          { res := .ok (r0.withStatus "error" (some e.toStr)), calls := [call], trace := ["error"] }
        else
          { res := .error e, calls := [call], trace := [] }
      | .ok resp =>
        match List.lookup "default" resp.vrfs with
        | none =>
          { res := .ok (r0.withStatus "error" (some (PyExn.keyError "default").toStr)),
            calls := [call], trace := ["error"] }
        | some ent =>
          if (ent.peers.length : Int) = n then
            { res := .ok (r0.withStatus "success" none), calls := [call], trace := ["success"] }
          else
            let r1 := r0.withStatus "failure" none
            if (ent.peers.length : Int) ≠ n then
              { res := .ok { r1 with messages := r1.messages
                  ++ ["Expecting " ++ toString n ++ " BGP EVPN peers and got " ++ toString ent.peers.length] },
                calls := [call], trace := ["failure"] }
            else
              { res := .ok r1, calls := [call], trace := ["failure"] }

/-- embedding of verify_bgp_rtc_state from src/anta/tests/routing/bgp.py -/
def verify_bgp_rtc_state (host : String) (sess : Except PyExn BgpResp) : Outcome :=
  let r0 : TestResult := { host := host, test := "verify_bgp_rtc_state" }
  let call : CmdCall := ⟨1, ["show bgp rt-membership summary"], "json"⟩
  match sess with
  | .error e =>
    if caughtBgp e then
      { res := .ok (r0.withStatus "error" (some e.toStr)), calls := [call], trace := ["error"] }
    else
      { res := .error e, calls := [call], trace := [] }
  | .ok resp =>
    match List.lookup "default" resp.vrfs with
    | none =>
      { res := .ok (r0.withStatus "error" (some (PyExn.keyError "default").toStr)),
        calls := [call], trace := ["error"] }
    | some ent =>
      let non_established_peers := (ent.peers.filter fun pe => pe.2.peerState ≠ "Established").map Prod.fst
      if non_established_peers.isEmpty then
        { res := .ok (r0.withStatus "success" none), calls := [call], trace := ["success"] }
      else
        { res := .ok (r0.withStatus "failure"
            (some ("The following RTC peers are not established: " ++ pyStrListRepr non_established_peers))),
          calls := [call], trace := ["failure"] }

/-- embedding of verify_bgp_rtc_count from src/anta/tests/routing/bgp.py -/
def verify_bgp_rtc_count (host : String) (number : Option Int) (sess : Except PyExn BgpResp) : Outcome :=
  let r0 : TestResult := { host := host, test := "verify_bgp_rtc_count" }
  let skipped : Outcome :=
    { res := .ok (r0.withStatus "skipped"
        (some "verify_bgp_rtc_count could not run because number was not supplied")),
      calls := [], trace := ["skipped"] }
  match number with
  | none => skipped
  | some n =>
    if n = 0 then skipped
    else
      let call : CmdCall := ⟨1, ["show bgp rt-membership summary"], "json"⟩
      match sess with
      | .error e =>
        if caughtBgp e then
          { res := .ok (r0.withStatus "error" (some e.toStr)), calls := [call], trace := ["error"] }
        else
          { res := .error e, calls := [call], trace := [] }
      | .ok resp =>
        match List.lookup "default" resp.vrfs with
        | none =>
          { res := .ok (r0.withStatus "error" (some (PyExn.keyError "default").toStr)),
            calls := [call], trace := ["error"] }
        | some ent =>
          let non_established_peers := (ent.peers.filter fun pe => pe.2.peerState ≠ "Established").map Prod.fst
          if non_established_peers.isEmpty ∧ (ent.peers.length : Int) = n then
            { res := .ok (r0.withStatus "success" none), calls := [call], trace := ["success"] }
          else
            let r1 := r0.withStatus "failure" none
            if (ent.peers.length : Int) ≠ n then
              { res := .ok (r1.withStatus "failure"
                  (some ("Expecting " ++ toString n ++ " BGP RTC peers and got " ++ toString ent.peers.length))),
                calls := [call], trace := ["failure", "failure"] }
            else
              { res := .ok r1, calls := [call], trace := ["failure"] }

/-! VXLAN response model.  The reply to show interfaces description is a dict
with an interfaceDescriptions key mapping interface names to entries; an entry
is embedded as an association list from field name to value so that the source
lookups by literal key name (including the misspelled intefraceStatus) are
fallible. -/

/-- reply to show interfaces description, response[0] of the runCmds result -/
structure VxResp where
  interfaceDescriptions : List (String × List (String × String))
deriving DecidableEq

/-- embedding of verify_vxlan from src/anta/tests/vxlan.py -/
def verify_vxlan (host : String) (sess : Except PyExn VxResp) : Outcome :=
  let r0 : TestResult := { host := host, test := "verify_vxlan" }
  let call : CmdCall := ⟨1, ["show interfaces description"], "json"⟩
  match sess with
  | .error e =>
    if caughtBgp e then
      { res := .ok (r0.withStatus "error" (some e.toStr)), calls := [call], trace := ["error"] }
    else
      { res := .error e, calls := [call], trace := [] }
  | .ok resp =>
    match List.lookup "Vxlan1" resp.interfaceDescriptions with
    | none =>
      { res := .ok (r0.withStatus "failure" (some "No interface VXLAN 1 detected.")),
        calls := [call], trace := ["failure"] }
    | some entry =>
      match List.lookup "lineProtocolStatus" entry with
      | none =>
        { res := .ok (r0.withStatus "error" (some (PyExn.keyError "lineProtocolStatus").toStr)),
          calls := [call], trace := ["error"] }
      | some protocol_status =>
        match List.lookup "intefraceStatus" entry with
        | none =>
          { res := .ok (r0.withStatus "error" (some (PyExn.keyError "intefraceStatus").toStr)),
            calls := [call], trace := ["error"] }
        | some interface_status =>
          if protocol_status = "up" ∧ interface_status = "up" then
            { res := .ok (r0.withStatus "success" none), calls := [call], trace := ["success"] }
          else
            { res := .ok { r0 with messages := r0.messages
                ++ ["Vxlan interface is " ++ protocol_status ++ "/" ++ interface_status ++ "."] },
              calls := [call], trace := [] }

/-- Python repr of True and False -/
def pyBoolRepr (b : Bool) : String := if b then "True" else "False"

/-- Python repr of one config-sanity category dict (field name to bool) -/
def renderCategory (content : List (String × Bool)) : String :=
  "\x7b" ++ joinComma (content.map fun kv => pyStrRepr kv.1 ++ ": " ++ pyBoolRepr kv.2) ++ "\x7d"

/-- Python repr of the failed_categories dict of verify_vxlan_config_sanity -/
def renderCategories (cats : List (String × List (String × Bool))) : String :=
  "\x7b" ++ joinComma (cats.map fun cv => pyStrRepr cv.1 ++ ": " ++ renderCategory cv.2) ++ "\x7d"

/-- reply to show vxlan config-sanity, response[0] of the runCmds result; each
category is an association list from field name to a boolean -/
structure VxSanityResp where
  categories : List (String × List (String × Bool))
deriving DecidableEq

/-- the failed_categories dict comprehension of verify_vxlan_config_sanity:
keeps localVtep and mlag categories whose allCheckPass is not True; the lookup
of allCheckPass can raise a KeyError, which aborts the comprehension -/
def failedCategories (cats : List (String × List (String × Bool))) :
    Except PyExn (List (String × List (String × Bool))) :=
  cats.foldlM (fun acc cv =>
    if cv.1 = "localVtep" ∨ cv.1 = "mlag" then
      match List.lookup "allCheckPass" cv.2 with
      | none => .error (.keyError "allCheckPass")
      | some b => .ok (if b ≠ true then acc ++ [cv] else acc)
    else .ok acc) []

/-- embedding of verify_vxlan_config_sanity from src/anta/tests/vxlan.py -/
def verify_vxlan_config_sanity (host : String) (sess : Except PyExn VxSanityResp) : Outcome :=
  let r0 : TestResult := { host := host, test := "verify_vxlan_config_sanity" }
  let call : CmdCall := ⟨1, ["show vxlan config-sanity"], "json"⟩
  match sess with
  | .error e =>
    if caughtBgp e then
      { res := .ok (r0.withStatus "error" (some e.toStr)), calls := [call], trace := ["error"] }
    else
      { res := .error e, calls := [call], trace := [] }
  | .ok resp =>
    if resp.categories.length = 0 then
      { res := .ok (r0.withStatus "skipped" (some "Vxlan is not enabled on this device")),
        calls := [call], trace := ["skipped"] }
    else
      match failedCategories resp.categories with
      | .error e =>
        { res := .ok (r0.withStatus "error" (some e.toStr)), calls := [call], trace := ["error"] }
      | .ok failed =>
        if ¬ failed.isEmpty then
          { res := .ok (r0.withStatus "failure"
              (some ("Vxlan config sanity check is not passing: " ++ renderCategories failed))),
            calls := [call], trace := ["failure"] }
        else
          { res := .ok (r0.withStatus "success" none), calls := [call], trace := ["success"] }

/-! Software check embeddings, from src/anta/tests/software.py.  These checks
catch only (jsonrpc.AppError, KeyError): a socket timeout raised by the session
escapes them. -/

/-- Python falsiness of the versions parameter: None and the empty list are
falsy -/
def pyFalsyList (versions : Option (List String)) : Bool :=
  match versions with
  | none => true
  | some vs => vs.isEmpty

/-- reply to show version, response[0] of the runCmds result -/
structure EosVerResp where
  version : String
deriving DecidableEq

/-- embedding of verify_eos_version from src/anta/tests/software.py -/
def verify_eos_version (host : String) (versions : Option (List String))
    (sess : Except PyExn EosVerResp) : Outcome :=
  let r0 : TestResult := { host := host, test := "verify_eos_version" }
  if pyFalsyList versions then
    { res := .ok (r0.withStatus "unset"
        (some "verify_eos_version was not run as no versions were givem")),
      calls := [], trace := ["unset"] }
  else
    let call : CmdCall := ⟨1, ["show version"], "json"⟩
    match sess with
    | .error e =>
      if caughtSw e then
        { res := .ok (r0.withStatus "error" (some e.toStr)), calls := [call], trace := ["error"] }
      else
        { res := .error e, calls := [call], trace := [] }
    | .ok resp =>
      if (versions.getD []).contains resp.version then
        { res := .ok (r0.withStatus "success" none), calls := [call], trace := ["success"] }
      else
        { res := .ok (r0.withStatus "failure"
            (some ("device is running version " ++ resp.version ++ " not in expected version"))),
          calls := [call], trace := ["failure"] }

/-- reply to show version detail as read by verify_terminattr_version:
response[0].details.packages.TerminAttr-core.version -/
structure TerminAttrResp where
  terminAttrVersion : String
deriving DecidableEq

/-- embedding of verify_terminattr_version from src/anta/tests/software.py -/
def verify_terminattr_version (host : String) (versions : Option (List String))
    (sess : Except PyExn TerminAttrResp) : Outcome :=
  let r0 : TestResult := { host := host, test := "verify_terminattr_version" }
  if pyFalsyList versions then
    { res := .ok (r0.withStatus "unset"
        (some "verify_terminattr_version was not run as no versions were givem")),
      calls := [], trace := ["unset"] }
  else
    let call : CmdCall := ⟨1, ["show version detail"], "json"⟩
    match sess with
    | .error e =>
      if caughtSw e then
        { res := .ok (r0.withStatus "error" (some e.toStr)), calls := [call], trace := ["error"] }
      else
        { res := .error e, calls := [call], trace := [] }
    | .ok resp =>
      if (versions.getD []).contains resp.terminAttrVersion then
        { res := .ok (r0.withStatus "success" none), calls := [call], trace := ["success"] }
      else
        { res := .ok (r0.withStatus "failure"
            (some ("device is running TerminAttr version " ++ resp.terminAttrVersion
              ++ " and is not in the allowed list"))),
          calls := [call], trace := ["failure"] }

/-- splitting a character list on a separator character, keeping empty pieces,
as Python str.split with an explicit separator does -/
def splitOnChar (c : Char) : List Char → List (List Char)
  | [] => [[]]
  | x :: rest =>
    if x = c then [] :: splitOnChar c rest
    else
      match splitOnChar c rest with
      | [] => [[x]]
      | g :: gs => (x :: g) :: gs

/-- Python str.split with a one-character separator -/
def pySplit (s : String) (c : Char) : List String :=
  (splitOnChar c s.data).map String.mk

/-- whether the second list is an initial segment of the first -/
def startsWithChars : List Char → List Char → Bool
  | _, [] => true
  | [], _ :: _ => false
  | c :: cs, p :: ps => p = c && startsWithChars cs ps

/-- Python str.startswith -/
def pyStartsWith (s start : String) : Bool :=
  startsWithChars s.data start.data

/-- fuel-bounded replacement of every non-overlapping occurrence of pat by rep,
scanning left to right; with fuel at least the length of the list this is
Python str.replace for a non-empty pattern -/
def replaceCharsFuel : Nat → List Char → List Char → List Char → List Char
  | 0, s, _, _ => s
  | Nat.succ f, s, pat, rep =>
    match s with
    | [] => []
    | c :: rest =>
      if startsWithChars s pat then rep ++ replaceCharsFuel f (List.drop pat.length s) pat rep
      else c :: replaceCharsFuel f rest pat rep

/-- Python str.replace for a non-empty pattern -/
def pyReplace (s pat rep : String) : String :=
  String.mk (replaceCharsFuel s.data.length s.data pat.data rep.data)

/-- Python int() on a string: optional sign followed by digits; None models the
ValueError raised on any other shape (whitespace and underscores are not
modelled) -/
def pyInt (s : String) : Option Int :=
  let core (digits : List Char) : Option Int :=
    if digits = [] ∨ ¬ digits.all Char.isDigit then none
    else some (digits.foldl (fun n c => 10 * n + ((c.toNat : Int) - 48)) 0)
  match s.data with
  | [] => none
  | c :: rest =>
    if c = Char.ofNat 45 then (core rest).map (fun n => -n)
    else if c = Char.ofNat 43 then core rest
    else core (c :: rest)

/-- the device models impacted by field notice 44, from the source -/
def fn44Devices : List String :=
  ["DCS-7010T-48", "DCS-7010T-48-DC", "DCS-7050TX-48", "DCS-7050TX-64", "DCS-7050TX-72",
   "DCS-7050TX-72Q", "DCS-7050TX-96", "DCS-7050TX2-128", "DCS-7050SX-64", "DCS-7050SX-72",
   "DCS-7050SX-72Q", "DCS-7050SX2-72Q", "DCS-7050SX-96", "DCS-7050SX2-128", "DCS-7050QX-32S",
   "DCS-7050QX2-32S", "DCS-7050SX3-48YC12", "DCS-7050CX3-32S", "DCS-7060CX-32S",
   "DCS-7060CX2-32S", "DCS-7060SX2-48YC6", "DCS-7160-48YC6", "DCS-7160-48TC6", "DCS-7160-32CQ",
   "DCS-7280SE-64", "DCS-7280SE-68", "DCS-7280SE-72", "DCS-7150SC-24-CLD", "DCS-7150SC-64-CLD",
   "DCS-7020TR-48", "DCS-7020TRA-48", "DCS-7020SR-24C2", "DCS-7020SRG-24C2", "DCS-7280TR-48C6",
   "DCS-7280TRA-48C6", "DCS-7280SR-48C6", "DCS-7280SRA-48C6", "DCS-7280SRAM-48C6",
   "DCS-7280SR2K-48C6-M", "DCS-7280SR2-48YC6", "DCS-7280SR2A-48YC6", "DCS-7280SRM-40CX2",
   "DCS-7280QR-C36", "DCS-7280QRA-C36S"]

/-- the model-name variant suffixes stripped by the source, in source order -/
def fn44Variants : List String := ["-SSD-F", "-SSD-R", "-M-F", "-M-R", "-F", "-R"]

/-- one entry of the components list of a show version detail reply -/
structure AbootComponent where
  name : String
  version : String
deriving DecidableEq

/-- reply to show version detail as read by verify_field_notice_44_resolution -/
structure EosDetailResp where
  modelName : String
  components : List AbootComponent
deriving DecidableEq

/-- the loop of the source assigning aboot_version for every component named
Aboot (the last assignment wins); the [2] indexing raises IndexError when the
version field has fewer than three dash-separated parts, and when no component
is named Aboot the variable stays unbound -/
def findAbootVersion (components : List AbootComponent) : Except PyExn (Option String) :=
  components.foldlM (fun acc c =>
    if c.name = "Aboot" then
      match (pySplit c.version (Char.ofNat 45)).get? 2 with
      | none => .error .indexError
      | some v => .ok (some v)
    else .ok acc) none

/-- the if/elif chain of the source on aboot_version: returns the failure
message when the version is one of the vulnerable ranges, none when the success
default stands; taking index 2 of the dot-separated version and applying
int() to it can raise IndexError or
ValueError, which the source does not catch -/
def fn44Verdict (ab : String) : Except PyExn (Option String) :=
  let failMsg := "device is running incorrect version of aboot (" ++ ab ++ ")"
  let minorAt2 : Except PyExn Int :=
    match (pySplit ab (Char.ofNat 46)).get? 2 with
    | none => .error .indexError
    | some s =>
      match pyInt s with
      | none => .error (.valueError ("invalid literal for int() with base 10: " ++ pyStrRepr s))
      | some n => .ok n
  if pyStartsWith ab "4.0." then
    match minorAt2 with
    | .error e => .error e
    | .ok n => .ok (if n < 7 then some failMsg else none)
  else if pyStartsWith ab "4.1." then
    match minorAt2 with
    | .error e => .error e
    | .ok n => .ok (if n < 1 then some failMsg else none)
  else if pyStartsWith ab "6.0." then
    match minorAt2 with
    | .error e => .error e
    | .ok n => .ok (if n < 9 then some failMsg else none)
  else if pyStartsWith ab "6.1." then
    match minorAt2 with
    | .error e => .error e
    | .ok n => .ok (if n < 7 then some failMsg else none)
  else .ok none

/-- embedding of verify_field_notice_44_resolution from src/anta/tests/software.py.
The source assigns result.result = unset with a message when the model is not
impacted but does not return there; it then unconditionally assigns success and
may overwrite it with failure, so the status trace can be unset, success,
failure within one execution. -/
def verify_field_notice_44_resolution (host : String) (sess : Except PyExn EosDetailResp) : Outcome :=
  let r0 : TestResult := { host := host, test := "verify_field_notice_44_resolution" }
  let call : CmdCall := ⟨1, ["show version detail"], "json"⟩
  match sess with
  | .error e =>
    if caughtSw e then
      { res := .ok (r0.withStatus "error" (some e.toStr)), calls := [call], trace := ["error"] }
    else
      { res := .error e, calls := [call], trace := [] }
  | .ok resp =>
    let model := fn44Variants.foldl (fun m v => pyReplace m v "") resp.modelName
    let r1 := if ¬ fn44Devices.contains model
      then r0.withStatus "unset" (some "device is not impacted by FN044") else r0
    let tr1 := if ¬ fn44Devices.contains model then ["unset"] else []
    match findAbootVersion resp.components with
    | .error e => { res := .error e, calls := [call], trace := tr1 }
    | .ok none =>
      { res := .error (.nameError "aboot_version"), calls := [call], trace := tr1 ++ ["success"] }
    | .ok (some ab) =>
      let r2 := r1.withStatus "success" none
      match fn44Verdict ab with
      | .error e => { res := .error e, calls := [call], trace := tr1 ++ ["success"] }
      | .ok none => { res := .ok r2, calls := [call], trace := tr1 ++ ["success"] }
      | .ok (some msg) =>
        { res := .ok (r2.withStatus "failure" (some msg)), calls := [call],
          trace := tr1 ++ ["success", "failure"] }

/-- the Python value bound to command_output in VerifyRunningConfigDiffs.test:
the collected text output is None, a list of strings, or a plain string -/
inductive ConfigDiffOutput where
  | noneV
  | listV (xs : List String)
  | strV (s : String)
deriving DecidableEq

/-- embedding of the test method of VerifyRunningConfigDiffs from
src/anta/tests/configuration.py, as a function of the already-collected command
output (collection and exception capture live in the AntaTest framework, which
is not under src/).  Iterating a Python string yields its characters, so the
string branch appends one single-character failure message per character.
Returns the final TestResult and the status trace. -/
def VerifyRunningConfigDiffs_test (name : String) (out : ConfigDiffOutput) :
    TestResult × List String :=
  let r0 : TestResult := { host := name, test := "verify_running_config_diffs" }
  match out with
  | .noneV => (r0.withStatus "success" none, ["success"])
  | .listV xs =>
    if ¬ xs.any (fun cmd => cmd ≠ "") then (r0.withStatus "success" none, ["success"])
    else (r0, [])
  | .strV s =>
    s.data.foldl
      (fun acc c => (acc.1.withStatus "failure" (some (String.singleton c)), acc.2 ++ ["failure"]))
      (r0.withStatus "failure" none, ["failure"])

/-- the status of the TestResult a check returned, or none when an exception
escaped the check -/
def Outcome.statusOf (o : Outcome) : Option String :=
  match o.res with
  | .ok r => some r.result
  | .error _ => none

/-- needle occurs as a contiguous substring of hay -/
def strSub (needle hay : String) : Prop :=
  ∃ a b : List Char, hay.data = a ++ needle.data ++ b

theorem strSub_refl (s : String) : strSub s s := ⟨[], [], by simp⟩

theorem strSub_of_mid (a s b : String) : strSub s (a ++ s ++ b) :=
  ⟨a.data, b.data, by simp [String.data_append]⟩

theorem strSub_trans {x y z : String} (h₁ : strSub x y) (h₂ : strSub y z) : strSub x z := by
  obtain ⟨a, b, ha⟩ := h₁
  obtain ⟨c, d, hc⟩ := h₂
  exact ⟨c ++ a, b ++ d, by simp [hc, ha, List.append_assoc]⟩

theorem strSub_append_left {x y : String} (h : strSub x y) (z : String) : strSub x (z ++ y) := by
  obtain ⟨a, b, ha⟩ := h
  exact ⟨z.data ++ a, b, by simp [String.data_append, ha, List.append_assoc]⟩

theorem strSub_append_right {x y : String} (h : strSub x y) (z : String) : strSub x (y ++ z) := by
  obtain ⟨a, b, ha⟩ := h
  exact ⟨a, b ++ z.data, by simp [String.data_append, ha, List.append_assoc]⟩

theorem strSub_joinComma {s : String} : ∀ {xs : List String}, s ∈ xs → strSub s (joinComma xs)
  | [], h => absurd h (List.not_mem_nil s)
  | [x], h => by
    rcases List.mem_singleton.mp h with rfl
    exact strSub_refl s
  | x :: y :: t, h => by
    rcases List.mem_cons.mp h with rfl | h'
    · show strSub s ((s ++ ", ") ++ joinComma (y :: t))
      exact strSub_append_right (strSub_append_right (strSub_refl s) ", ") (joinComma (y :: t))
    · show strSub s ((x ++ ", ") ++ joinComma (y :: t))
      exact strSub_append_left (strSub_joinComma h') (x ++ ", ")

/-- C1: the BGP peer-counting checks are claimed to return success only when
the peer count matches AND every peer is healthy.  The code violates this: with
the expected count matched but one peer not Established,
verify_bgp_ipv4_unicast_count still returns success (its success condition is
count-matches OR issues-exist), and verify_bgp_evpn_count returns success
without ever inspecting peer states.  This theorem evaluates both checks at
such failing inputs. -/
theorem C1_count_checks_success_despite_unhealthy_peers :
    (verify_bgp_ipv4_unicast_count "leaf1" (some 3) "default"
      (.ok ⟨[("default", ⟨[("10.1.255.0", ⟨"Established", 0, 0⟩),
                           ("10.1.255.2", ⟨"Idle", 0, 0⟩),
                           ("10.1.255.4", ⟨"Established", 0, 0⟩)]⟩)]⟩)).statusOf = some "success"
    ∧ (verify_bgp_evpn_count "leaf1" (some 2)
        (.ok ⟨[("default", ⟨[("10.1.0.1", ⟨"Idle", 0, 0⟩),
                             ("10.1.0.2", ⟨"Established", 0, 0⟩)]⟩)]⟩)).statusOf = some "success" := by
  constructor <;> decide

/-- C4 counterexample: verify_eos_version called without its required versions
parameter returns status unset, not skipped (the claim requires skipped), though
it does return before issuing any command. -/
theorem C4_counterexample_missing_versions_gives_unset :
    (verify_eos_version "leaf1" none (.ok ⟨"4.26.1F"⟩)).statusOf = some "unset"
    ∧ (verify_eos_version "leaf1" none (.ok ⟨"4.26.1F"⟩)).statusOf ≠ some "skipped"
    ∧ (verify_eos_version "leaf1" none (.ok ⟨"4.26.1F"⟩)).calls = [] := by
  refine ⟨by decide, by decide, by decide⟩

/-- C4 amended: a check called with its required parameter absent returns
before issuing any command, with an explanatory message; the BGP counting
checks return status skipped, but verify_eos_version and
verify_terminattr_version return status unset instead. -/
theorem C4_amended_missing_param_returns_before_any_command :
    ∀ (host vrf : String) (sessB sessC sessD : Except PyExn BgpResp)
      (sessV : Except PyExn EosVerResp) (sessT : Except PyExn TerminAttrResp),
      ((verify_bgp_ipv4_unicast_count host none vrf sessB).res
          = .ok ⟨host, "verify_bgp_ipv4_unicast_count", "skipped",
              ["verify_bgp_ipv4_unicast_count could not run because number of vrf was not supplied"]⟩
        ∧ (verify_bgp_ipv4_unicast_count host none vrf sessB).calls = [])
      ∧ ((verify_bgp_evpn_count host none sessC).res
          = .ok ⟨host, "verify_bgp_evpn_count", "skipped",
              ["verify_bgp_evpn_count could not run because number was not supplied."]⟩
        ∧ (verify_bgp_evpn_count host none sessC).calls = [])
      ∧ ((verify_bgp_rtc_count host none sessD).res
          = .ok ⟨host, "verify_bgp_rtc_count", "skipped",
              ["verify_bgp_rtc_count could not run because number was not supplied"]⟩
        ∧ (verify_bgp_rtc_count host none sessD).calls = [])
      ∧ ((verify_eos_version host none sessV).res
          = .ok ⟨host, "verify_eos_version", "unset",
              ["verify_eos_version was not run as no versions were givem"]⟩
        ∧ (verify_eos_version host none sessV).calls = [])
      ∧ ((verify_terminattr_version host none sessT).res
          = .ok ⟨host, "verify_terminattr_version", "unset",
              ["verify_terminattr_version was not run as no versions were givem"]⟩
        ∧ (verify_terminattr_version host none sessT).calls = []) := by
  intro host vrf sessB sessC sessD sessV sessT
  exact ⟨⟨rfl, rfl⟩, ⟨rfl, rfl⟩, ⟨rfl, rfl⟩, ⟨rfl, rfl⟩, ⟨rfl, rfl⟩⟩

/-- C10: for each of the three peer-counting checks, passing number 0 yields
the very same outcome as passing no number at all (Python falsiness makes the
two indistinguishable): status skipped with the could-not-run message and zero
commands issued, so a zero-peer expectation can never be verified. -/
theorem C10_zero_number_behaves_as_missing :
    ∀ (host vrf : String) (s1 s2 s3 : Except PyExn BgpResp),
      (verify_bgp_ipv4_unicast_count host (some 0) vrf s1
          = verify_bgp_ipv4_unicast_count host none vrf s1
        ∧ (verify_bgp_ipv4_unicast_count host (some 0) vrf s1).statusOf = some "skipped"
        ∧ (verify_bgp_ipv4_unicast_count host (some 0) vrf s1).calls = [])
      ∧ (verify_bgp_evpn_count host (some 0) s2 = verify_bgp_evpn_count host none s2
        ∧ (verify_bgp_evpn_count host (some 0) s2).statusOf = some "skipped"
        ∧ (verify_bgp_evpn_count host (some 0) s2).calls = [])
      ∧ (verify_bgp_rtc_count host (some 0) s3 = verify_bgp_rtc_count host none s3
        ∧ (verify_bgp_rtc_count host (some 0) s3).statusOf = some "skipped"
        ∧ (verify_bgp_rtc_count host (some 0) s3).calls = []) := by
  intro host vrf s1 s2 s3
  refine ⟨⟨?_, ?_, ?_⟩, ⟨?_, ?_, ?_⟩, ⟨?_, ?_, ?_⟩⟩ <;>
    simp [verify_bgp_ipv4_unicast_count, verify_bgp_evpn_count, verify_bgp_rtc_count,
      Outcome.statusOf, TestResult.withStatus]

theorem configDiffs_foldl_result (l : List Char) :
    ∀ acc : TestResult × List String, acc.1.result = "failure" →
      (l.foldl
        (fun acc c => (acc.1.withStatus "failure" (some (String.singleton c)), acc.2 ++ ["failure"]))
        acc).1.result = "failure" := by
  induction l with
  | nil => intro acc h; exact h
  | cons c t ih => intro acc _; exact ih _ rfl

/-- C5 counterexample: with a well-formed reply in which Vxlan1 is up/down,
verify_vxlan appends a message but never assigns a status, so the TestResult
comes back unset instead of success or failure. -/
theorem C5_counterexample_vxlan_leaves_status_unset :
    (verify_vxlan "leaf1"
      (.ok ⟨[("Vxlan1", [("lineProtocolStatus", "up"), ("intefraceStatus", "down")])]⟩)).res
      = .ok ⟨"leaf1", "verify_vxlan", "unset", ["Vxlan interface is up/down."]⟩ := by
  decide

/-- C5 amended: for the cited checks the verification step sets success or
failure for every well-formed output except two branches that leave the status
unset: VerifyRunningConfigDiffs.test leaves it unset exactly when the collected
output is a list containing a non-empty string, and there it appends no message
at all (the message list stays empty); verify_vxlan leaves it unset exactly
when the Vxlan1 entry and both status fields are readable but the two statuses
are not both up, and there it does append the status message, the only one of
the result. -/
theorem C5_amended_unset_exactly_on_the_two_uncovered_branches :
    (∀ (name : String) (out : ConfigDiffOutput),
      (VerifyRunningConfigDiffs_test name out).1.result = "unset"
        ↔ ∃ xs, out = .listV xs ∧ ∃ x ∈ xs, x ≠ "")
    ∧ (∀ (name : String) (xs : List String), (∃ x ∈ xs, x ≠ "") →
      (VerifyRunningConfigDiffs_test name (.listV xs)).1.messages = [])
    ∧ (∀ (host : String) (resp : VxResp),
      (verify_vxlan host (.ok resp)).statusOf = some "unset"
        ↔ ∃ entry lp ifs,
            List.lookup "Vxlan1" resp.interfaceDescriptions = some entry
            ∧ List.lookup "lineProtocolStatus" entry = some lp
            ∧ List.lookup "intefraceStatus" entry = some ifs
            ∧ ¬ (lp = "up" ∧ ifs = "up"))
    ∧ (∀ (host : String) (resp : VxResp) (entry : List (String × String)) (lp ifs : String),
      List.lookup "Vxlan1" resp.interfaceDescriptions = some entry →
      List.lookup "lineProtocolStatus" entry = some lp →
      List.lookup "intefraceStatus" entry = some ifs →
      ¬ (lp = "up" ∧ ifs = "up") →
      (verify_vxlan host (.ok resp)).res
        = .ok ⟨host, "verify_vxlan", "unset",
            ["Vxlan interface is " ++ lp ++ "/" ++ ifs ++ "."]⟩) := by
  refine ⟨?_, ?_, ?_, ?_⟩
  · intro name out
    cases out with
    | noneV => simp [VerifyRunningConfigDiffs_test, TestResult.withStatus]
    | listV xs =>
      cases hany : xs.any (fun cmd => cmd ≠ "") with
      | false =>
        have hall : ∀ x ∈ xs, x = "" := by
          intro x hx
          have hx' := List.any_eq_false.mp hany x hx
          simpa using hx'
        simp only [VerifyRunningConfigDiffs_test, hany]
        simp [TestResult.withStatus]
        exact hall
      | true =>
        have hex := List.any_eq_true.mp hany
        simp only [decide_eq_true_eq] at hex
        simp only [VerifyRunningConfigDiffs_test, hany]
        simp [TestResult.withStatus]
        exact hex
    | strV s =>
      have := configDiffs_foldl_result s.data
        ({ host := name, test := "verify_running_config_diffs" : TestResult}.withStatus
          "failure" none, ["failure"]) rfl
      simp only [VerifyRunningConfigDiffs_test]
      rw [this]
      simp
  · intro name xs hex
    have hnall : ¬ ∀ x ∈ xs, x = "" := by
      rcases hex with ⟨x, hx, hne⟩
      exact fun hall => hne (hall x hx)
    simp [VerifyRunningConfigDiffs_test, hnall]
  · intro host resp
    cases h1 : List.lookup "Vxlan1" resp.interfaceDescriptions with
    | none => simp [verify_vxlan, h1, Outcome.statusOf, TestResult.withStatus]
    | some entry =>
      cases h2 : List.lookup "lineProtocolStatus" entry with
      | none => simp [verify_vxlan, h1, h2, Outcome.statusOf, TestResult.withStatus]
      | some lp =>
        cases h3 : List.lookup "intefraceStatus" entry with
        | none => simp [verify_vxlan, h1, h2, h3, Outcome.statusOf, TestResult.withStatus]
        | some ifs =>
          by_cases h4 : lp = "up" ∧ ifs = "up"
          · simp [verify_vxlan, h1, h2, h3, h4, Outcome.statusOf, TestResult.withStatus]
          · simp [verify_vxlan, h1, h2, h3, h4, Outcome.statusOf, TestResult.withStatus]
            exact fun hlp hifs => h4 ⟨hlp, hifs⟩
  · intro host resp entry lp ifs h1 h2 h3 h4
    simp [verify_vxlan, h1, h2, h3, h4, TestResult.withStatus]

/-- C5 witness: a diff list with a non-empty line leaves the config-diffs
result unset with no message at all, and an up/down Vxlan1 reply leaves the
vxlan result unset with exactly the status message. -/
theorem C5_amended_unset_exactly_on_the_two_uncovered_branches_witness :
    (∃ x ∈ ["", "interface Vxlan1"], x ≠ "")
    ∧ (VerifyRunningConfigDiffs_test "leaf1" (.listV ["", "interface Vxlan1"])).1.messages = []
    ∧ ¬ (("up" : String) = "up" ∧ ("down" : String) = "up")
    ∧ (verify_vxlan "leaf1"
        (.ok ⟨[("Vxlan1", [("lineProtocolStatus", "up"), ("intefraceStatus", "down")])]⟩)).res
      = .ok ⟨"leaf1", "verify_vxlan", "unset", ["Vxlan interface is " ++ "up" ++ "/" ++ "down" ++ "."]⟩ :=
  ⟨by decide,
    (C5_amended_unset_exactly_on_the_two_uncovered_branches).2.1 "leaf1"
      ["", "interface Vxlan1"] (by refine ⟨"interface Vxlan1", ?_, ?_⟩ <;> decide),
    by decide,
    (C5_amended_unset_exactly_on_the_two_uncovered_branches).2.2.2 "leaf1"
      ⟨[("Vxlan1", [("lineProtocolStatus", "up"), ("intefraceStatus", "down")])]⟩
      [("lineProtocolStatus", "up"), ("intefraceStatus", "down")] "up" "down"
      (by decide) (by decide) (by decide) (by decide)⟩

/-- C9: verify_vxlan reads the interface status through the misspelled key
intefraceStatus.  For every reply whose Vxlan1 entry has lineProtocolStatus and
a conventionally spelled interfaceStatus but no key literally spelled
intefraceStatus, the lookup raises a KeyError that the check catches, so the
result is error (and in particular never success, whatever the status values). -/
theorem C9_misspelled_intefraceStatus_key_forces_error
    (host lp ifs : String) (entry : List (String × String)) (rd : List (String × List (String × String)))
    (h1 : List.lookup "Vxlan1" rd = some entry)
    (h2 : List.lookup "lineProtocolStatus" entry = some lp)
    (_h3 : List.lookup "interfaceStatus" entry = some ifs)
    (h4 : List.lookup "intefraceStatus" entry = none) :
    (verify_vxlan host (.ok ⟨rd⟩)).res
      = .ok ⟨host, "verify_vxlan", "error", [pyQuote ++ "intefraceStatus" ++ pyQuote]⟩
    ∧ (verify_vxlan host (.ok ⟨rd⟩)).statusOf ≠ some "success" := by
  constructor
  · simp [verify_vxlan, h1, h2, h4, Outcome.statusOf, TestResult.withStatus, PyExn.toStr]
  · simp [verify_vxlan, h1, h2, h4, Outcome.statusOf, TestResult.withStatus]

/-- C9 witness: a concrete reply with both statuses up under the conventional
spelling still produces an error result. -/
theorem C9_misspelled_intefraceStatus_key_forces_error_witness :
    (List.lookup "Vxlan1"
        [("Vxlan1", [("lineProtocolStatus", "up"), ("interfaceStatus", "up")])]
      = some [("lineProtocolStatus", "up"), ("interfaceStatus", "up")])
    ∧ (List.lookup "lineProtocolStatus" [("lineProtocolStatus", "up"), ("interfaceStatus", "up")]
      = some "up")
    ∧ (List.lookup "interfaceStatus" [("lineProtocolStatus", "up"), ("interfaceStatus", "up")]
      = some "up")
    ∧ (List.lookup "intefraceStatus" [("lineProtocolStatus", "up"), ("interfaceStatus", "up")]
      = none)
    ∧ (verify_vxlan "leaf1"
        (.ok ⟨[("Vxlan1", [("lineProtocolStatus", "up"), ("interfaceStatus", "up")])]⟩)).res
      = .ok ⟨"leaf1", "verify_vxlan", "error", [pyQuote ++ "intefraceStatus" ++ pyQuote]⟩ :=
  ⟨by decide, by decide, by decide, by decide,
    (C9_misspelled_intefraceStatus_key_forces_error "leaf1" "up" "up"
      [("lineProtocolStatus", "up"), ("interfaceStatus", "up")]
      [("Vxlan1", [("lineProtocolStatus", "up"), ("interfaceStatus", "up")])]
      (by decide) (by decide) (by decide) (by decide)).1⟩

/-- C6 counterexample: the claim asserts that with expected number 3 any
response whose VRF holds exactly 2 peers yields failure with the
Expecting-3-got-2 message; but when one of those 2 peers is not Established the
code returns success (its success condition is count-matches OR issues-exist),
so the claim as stated is false. -/
theorem C6_counterexample_two_peers_one_unhealthy_gives_success :
    (verify_bgp_ipv4_unicast_count "leaf1" (some 3) "default"
      (.ok ⟨[("default", ⟨[("10.1.255.0", ⟨"Established", 0, 0⟩),
                           ("10.1.255.2", ⟨"Idle", 0, 0⟩)]⟩)]⟩)).statusOf = some "success"
    ∧ (verify_bgp_ipv4_unicast_count "leaf1" (some 3) "default"
      (.ok ⟨[("default", ⟨[("10.1.255.0", ⟨"Established", 0, 0⟩),
                           ("10.1.255.2", ⟨"Idle", 0, 0⟩)]⟩)]⟩)).statusOf ≠ some "failure" := by
  constructor <;> decide

/-- C6 amended: for verify_bgp_ipv4_unicast_count with expected number 3, a
response whose default VRF holds exactly 3 peers, all Established with empty
message queues, yields success; a response whose default VRF holds exactly 2
peers, all Established with empty message queues, yields failure with the
message Expecting 3 BGP peer in vrf default and got 2. -/
theorem C6_amended_count_scenarios_for_healthy_peers
    (host : String) (m : List (String × VrfEntry)) (ent : VrfEntry)
    (hl : List.lookup "default" m = some ent)
    (hhealthy : ∀ pe ∈ ent.peers, bgpPeerBad pe.2 = false) :
    (ent.peers.length = 3 →
      (verify_bgp_ipv4_unicast_count host (some 3) "default" (.ok ⟨m⟩)).res
        = .ok ⟨host, "verify_bgp_ipv4_unicast_count", "success", []⟩)
    ∧ (ent.peers.length = 2 →
      (verify_bgp_ipv4_unicast_count host (some 3) "default" (.ok ⟨m⟩)).res
        = .ok ⟨host, "verify_bgp_ipv4_unicast_count", "failure",
            ["Expecting 3 BGP peer in vrf default and got 2"]⟩) := by
  have hfilter : ent.peers.filter (fun pe => bgpPeerBad pe.2) = [] := by
    rw [List.filter_eq_nil_iff]
    intro pe hpe
    simp [hhealthy pe hpe]
  constructor
  · intro hlen
    simp [verify_bgp_ipv4_unicast_count, hl, hfilter, hlen, Outcome.statusOf,
      TestResult.withStatus]
  · intro hlen
    simp [verify_bgp_ipv4_unicast_count, hl, hfilter, hlen, Outcome.statusOf,
      TestResult.withStatus]
    decide

/-- C6 witness: concrete 3-peer and 2-peer healthy responses exercising both
branches of the amended claim. -/
theorem C6_amended_count_scenarios_for_healthy_peers_witness :
    (List.lookup "default"
        [("default", (⟨[("p1", ⟨"Established", 0, 0⟩), ("p2", ⟨"Established", 0, 0⟩)]⟩ : VrfEntry))]
      = some ⟨[("p1", ⟨"Established", 0, 0⟩), ("p2", ⟨"Established", 0, 0⟩)]⟩)
    ∧ ((verify_bgp_ipv4_unicast_count "leaf1" (some 3) "default"
        (.ok ⟨[("default", ⟨[("p1", ⟨"Established", 0, 0⟩), ("p2", ⟨"Established", 0, 0⟩)]⟩)]⟩)).res
      = .ok ⟨"leaf1", "verify_bgp_ipv4_unicast_count", "failure",
          ["Expecting 3 BGP peer in vrf default and got 2"]⟩) :=
  ⟨by decide,
    (C6_amended_count_scenarios_for_healthy_peers "leaf1"
      [("default", ⟨[("p1", ⟨"Established", 0, 0⟩), ("p2", ⟨"Established", 0, 0⟩)]⟩)]
      ⟨[("p1", ⟨"Established", 0, 0⟩), ("p2", ⟨"Established", 0, 0⟩)]⟩
      (by decide) (by decide)).2 (by decide)⟩

theorem strSub_pyStrRepr (s : String) : strSub s (pyStrRepr s) := by
  show strSub s (pyQuote ++ s ++ pyQuote)
  exact strSub_of_mid pyQuote s pyQuote

theorem strSub_renderPeerEntry_state (pe : PeerEntry) :
    strSub pe.peerState (renderPeerEntry pe) := by
  refine ⟨("\x7b" ++ pyStrRepr "peerState" ++ ": " ++ pyQuote).data,
    (pyQuote ++ ", " ++ pyStrRepr "inMsgQueue" ++ ": " ++ toString pe.inMsgQueue ++ ", "
      ++ pyStrRepr "outMsgQueue" ++ ": " ++ toString pe.outMsgQueue ++ "\x7d").data, ?_⟩
  simp [renderPeerEntry, pyStrRepr, String.data_append, List.append_assoc]

theorem strSub_renderPeerEntry_inq (pe : PeerEntry) :
    strSub (toString pe.inMsgQueue) (renderPeerEntry pe) := by
  refine ⟨("\x7b" ++ pyStrRepr "peerState" ++ ": " ++ pyStrRepr pe.peerState ++ ", "
      ++ pyStrRepr "inMsgQueue" ++ ": ").data,
    (", " ++ pyStrRepr "outMsgQueue" ++ ": " ++ toString pe.outMsgQueue ++ "\x7d").data, ?_⟩
  simp [renderPeerEntry, pyStrRepr, String.data_append, List.append_assoc]

theorem strSub_renderPeerEntry_outq (pe : PeerEntry) :
    strSub (toString pe.outMsgQueue) (renderPeerEntry pe) := by
  refine ⟨("\x7b" ++ pyStrRepr "peerState" ++ ": " ++ pyStrRepr pe.peerState ++ ", "
      ++ pyStrRepr "inMsgQueue" ++ ": " ++ toString pe.inMsgQueue ++ ", "
      ++ pyStrRepr "outMsgQueue" ++ ": ").data, ("\x7d" : String).data, ?_⟩
  simp [renderPeerEntry, pyStrRepr, String.data_append, List.append_assoc]

theorem strSub_renderPeerDict {ps : List (String × PeerEntry)} {p : String} {pe : PeerEntry}
    (h : (p, pe) ∈ ps) :
    strSub (pyStrRepr p ++ ": " ++ renderPeerEntry pe) (renderPeerDict ps) := by
  have hm : pyStrRepr p ++ ": " ++ renderPeerEntry pe
      ∈ ps.map (fun x => pyStrRepr x.1 ++ ": " ++ renderPeerEntry x.2) := by
    exact List.mem_map_of_mem _ h
  have hj := strSub_joinComma hm
  show strSub _ (("\x7b" ++ joinComma _) ++ "\x7d")
  exact strSub_append_right (strSub_append_left hj "\x7b") "\x7d"

theorem strSub_renderStateIssue {m : List (String × List (String × PeerEntry))}
    {v : String} {ps : List (String × PeerEntry)} (h : (v, ps) ∈ m) :
    strSub (pyStrRepr v ++ ": " ++ renderPeerDict ps) (renderStateIssue m) := by
  have hm : pyStrRepr v ++ ": " ++ renderPeerDict ps
      ∈ m.map (fun x => pyStrRepr x.1 ++ ": " ++ renderPeerDict x.2) := by
    exact List.mem_map_of_mem _ h
  have hj := strSub_joinComma hm
  show strSub _ (("\x7b" ++ joinComma _) ++ "\x7d")
  exact strSub_append_right (strSub_append_left hj "\x7b") "\x7d"

theorem mem_stateIssue {m : List (String × VrfEntry)} {v : String} {ent : VrfEntry}
    (h : (v, ent) ∈ m) (hbad : ent.peers.filter (fun pe => bgpPeerBad pe.2) ≠ []) :
    (v, ent.peers.filter (fun pe => bgpPeerBad pe.2)) ∈ stateIssue m := by
  rw [stateIssue, List.mem_filterMap]
  refine ⟨(v, ent), h, ?_⟩
  simp only [List.isEmpty_iff, hbad, if_neg]
  simp [hbad]

/-- C7: for verify_bgp_ipv4_unicast_state, given a response containing two
VRFs in which exactly one peer has a peerState other than Established, the
result is failure and the single message identifies that VRF, that peer, the
state of that peer and its in and out message-queue depths (each a substring of
the message, which renders the state_issue dict). -/
theorem C7_state_check_failure_message_identifies_bad_peer
    (host v p : String) (pe : PeerEntry) (m : List (String × VrfEntry)) (ent : VrfEntry)
    (_hnv : m.length = 2)
    (hv : (v, ent) ∈ m) (hp : (p, pe) ∈ ent.peers)
    (hstate : pe.peerState ≠ "Established")
    (_huniq : ∀ x ∈ m, ∀ y ∈ x.2.peers, y.2.peerState ≠ "Established" → x.1 = v ∧ y.1 = p) :
    ∃ msg, (verify_bgp_ipv4_unicast_state host (.ok ⟨m⟩)).res
        = .ok ⟨host, "verify_bgp_ipv4_unicast_state", "failure", [msg]⟩
      ∧ strSub v msg ∧ strSub p msg ∧ strSub pe.peerState msg
      ∧ strSub (toString pe.inMsgQueue) msg ∧ strSub (toString pe.outMsgQueue) msg := by
  have hbadpe : bgpPeerBad pe = true := by
    simp [bgpPeerBad, hstate]
  have hpfilter : (p, pe) ∈ ent.peers.filter (fun x => bgpPeerBad x.2) :=
    List.mem_filter.mpr ⟨hp, by simpa using hbadpe⟩
  have hbadne : ent.peers.filter (fun x => bgpPeerBad x.2) ≠ [] :=
    List.ne_nil_of_mem hpfilter
  have hvissue := mem_stateIssue hv hbadne
  have hIssueNe : stateIssue m ≠ [] := List.ne_nil_of_mem hvissue
  refine ⟨"Some IPv4 Unicast BGP Peer are not up: " ++ renderStateIssue (stateIssue m), ?_, ?_, ?_, ?_, ?_, ?_⟩
  · simp [verify_bgp_ipv4_unicast_state, List.isEmpty_iff, hIssueNe, TestResult.withStatus]
  · exact strSub_append_left
      (strSub_trans
        (strSub_append_right (strSub_append_right (strSub_pyStrRepr v) ": ")
          (renderPeerDict (ent.peers.filter (fun x => bgpPeerBad x.2))))
        (strSub_renderStateIssue hvissue))
      "Some IPv4 Unicast BGP Peer are not up: "
  · exact strSub_append_left
      (strSub_trans
        (strSub_trans
          (strSub_append_right (strSub_append_right (strSub_pyStrRepr p) ": ")
            (renderPeerEntry pe))
          (strSub_renderPeerDict hpfilter))
        (strSub_trans
          (strSub_append_left (strSub_refl _) (pyStrRepr v ++ ": "))
          (strSub_renderStateIssue hvissue)))
      "Some IPv4 Unicast BGP Peer are not up: "
  · exact strSub_append_left
      (strSub_trans
        (strSub_trans
          (strSub_append_left (strSub_renderPeerEntry_state pe) (pyStrRepr p ++ ": "))
          (strSub_renderPeerDict hpfilter))
        (strSub_trans
          (strSub_append_left (strSub_refl _) (pyStrRepr v ++ ": "))
          (strSub_renderStateIssue hvissue)))
      "Some IPv4 Unicast BGP Peer are not up: "
  · exact strSub_append_left
      (strSub_trans
        (strSub_trans
          (strSub_append_left (strSub_renderPeerEntry_inq pe) (pyStrRepr p ++ ": "))
          (strSub_renderPeerDict hpfilter))
        (strSub_trans
          (strSub_append_left (strSub_refl _) (pyStrRepr v ++ ": "))
          (strSub_renderStateIssue hvissue)))
      "Some IPv4 Unicast BGP Peer are not up: "
  · exact strSub_append_left
      (strSub_trans
        (strSub_trans
          (strSub_append_left (strSub_renderPeerEntry_outq pe) (pyStrRepr p ++ ": "))
          (strSub_renderPeerDict hpfilter))
        (strSub_trans
          (strSub_append_left (strSub_refl _) (pyStrRepr v ++ ": "))
          (strSub_renderStateIssue hvissue)))
      "Some IPv4 Unicast BGP Peer are not up: "

/-- C7 witness: a concrete two-VRF response in which exactly the peer 10.1.1.2
of vrf PROD is Idle. -/
theorem C7_state_check_failure_message_identifies_bad_peer_witness :
    ([("default", (⟨[("10.1.1.1", ⟨"Established", 0, 0⟩)]⟩ : VrfEntry)),
      ("PROD", ⟨[("10.1.1.2", ⟨"Idle", 3, 5⟩)]⟩)].length = 2)
    ∧ ("PROD", (⟨[("10.1.1.2", ⟨"Idle", 3, 5⟩)]⟩ : VrfEntry))
        ∈ [("default", (⟨[("10.1.1.1", ⟨"Established", 0, 0⟩)]⟩ : VrfEntry)),
           ("PROD", ⟨[("10.1.1.2", ⟨"Idle", 3, 5⟩)]⟩)]
    ∧ (("10.1.1.2", (⟨"Idle", 3, 5⟩ : PeerEntry))
        ∈ [("10.1.1.2", (⟨"Idle", 3, 5⟩ : PeerEntry))])
    ∧ ("Idle" : String) ≠ "Established"
    ∧ (∃ msg, (verify_bgp_ipv4_unicast_state "leaf1"
          (.ok ⟨[("default", ⟨[("10.1.1.1", ⟨"Established", 0, 0⟩)]⟩),
                 ("PROD", ⟨[("10.1.1.2", ⟨"Idle", 3, 5⟩)]⟩)]⟩)).res
        = .ok ⟨"leaf1", "verify_bgp_ipv4_unicast_state", "failure", [msg]⟩
      ∧ strSub "PROD" msg ∧ strSub "10.1.1.2" msg ∧ strSub "Idle" msg
      ∧ strSub (toString (3 : Int)) msg ∧ strSub (toString (5 : Int)) msg) :=
  ⟨by decide, by decide, by decide, by decide,
    C7_state_check_failure_message_identifies_bad_peer "leaf1" "PROD" "10.1.1.2"
      ⟨"Idle", 3, 5⟩
      [("default", ⟨[("10.1.1.1", ⟨"Established", 0, 0⟩)]⟩),
       ("PROD", ⟨[("10.1.1.2", ⟨"Idle", 3, 5⟩)]⟩)]
      ⟨[("10.1.1.2", ⟨"Idle", 3, 5⟩)]⟩
      (by decide) (by decide) (by decide) (by decide) (by decide)⟩

/-- C8 counterexample: the claim covers every check, but a transport timeout
raised while verify_terminattr_version collects its command escapes the
function (only AppError and KeyError are caught), so no TestResult with status
error is returned at all. -/
theorem C8_counterexample_timeout_escapes_software_check :
    (verify_terminattr_version "leaf1" (some ["v1.19.0"])
        (.error (.socketTimeout "timed out"))).res
      = .error (.socketTimeout "timed out") := by
  rfl

/-- C8 amended: for every check that catches socket.timeout (the bgp and vxlan
checks), a transport timeout during collection yields a TestResult with status
error whose message list is exactly the stringified failure cause, and no
verification output is ever produced (the embedded result carries no other
message and does not depend on any reply); the software checks instead let the
timeout propagate to the caller. -/
theorem C8_amended_timeout_gives_error_result_where_caught
    (host vrf t : String) (n : Int) (vs : List String)
    (hn : n ≠ 0) (hv : vrf ≠ "") (hvs : vs ≠ []) :
    ((verify_bgp_ipv4_unicast_state host (.error (.socketTimeout t))).res
        = .ok ⟨host, "verify_bgp_ipv4_unicast_state", "error", [t]⟩)
    ∧ ((verify_bgp_ipv6_unicast_state host (.error (.socketTimeout t))).res
        = .ok ⟨host, "verify_bgp_ipv6_unicast_state", "error", [t]⟩)
    ∧ ((verify_bgp_ipv4_unicast_count host (some n) vrf (.error (.socketTimeout t))).res
        = .ok ⟨host, "verify_bgp_ipv4_unicast_count", "error", [t]⟩)
    ∧ ((verify_bgp_evpn_state host (.error (.socketTimeout t))).res
        = .ok ⟨host, "verify_bgp_evpn_state", "error", [t]⟩)
    ∧ ((verify_bgp_evpn_count host (some n) (.error (.socketTimeout t))).res
        = .ok ⟨host, "verify_bgp_evpn_count", "error", [t]⟩)
    ∧ ((verify_bgp_rtc_state host (.error (.socketTimeout t))).res
        = .ok ⟨host, "verify_bgp_rtc_state", "error", [t]⟩)
    ∧ ((verify_bgp_rtc_count host (some n) (.error (.socketTimeout t))).res
        = .ok ⟨host, "verify_bgp_rtc_count", "error", [t]⟩)
    ∧ ((verify_vxlan host (.error (.socketTimeout t))).res
        = .ok ⟨host, "verify_vxlan", "error", [t]⟩)
    ∧ ((verify_vxlan_config_sanity host (.error (.socketTimeout t))).res
        = .ok ⟨host, "verify_vxlan_config_sanity", "error", [t]⟩)
    ∧ ((verify_eos_version host (some vs) (.error (.socketTimeout t))).res
        = .error (.socketTimeout t))
    ∧ ((verify_terminattr_version host (some vs) (.error (.socketTimeout t))).res
        = .error (.socketTimeout t))
    ∧ ((verify_field_notice_44_resolution host (.error (.socketTimeout t))).res
        = .error (.socketTimeout t)) := by
  refine ⟨?_, ?_, ?_, ?_, ?_, ?_, ?_, ?_, ?_, ?_, ?_, ?_⟩ <;>
    simp [verify_bgp_ipv4_unicast_state, verify_bgp_ipv6_unicast_state,
      verify_bgp_ipv4_unicast_count, verify_bgp_evpn_state, verify_bgp_evpn_count,
      verify_bgp_rtc_state, verify_bgp_rtc_count, verify_vxlan, verify_vxlan_config_sanity,
      verify_eos_version, verify_terminattr_version, verify_field_notice_44_resolution,
      pyFalsyList, hn, hv, hvs, caughtBgp, caughtSw, PyExn.toStr, TestResult.withStatus]

/-- C8 witness: concrete instantiation of the timeout conversion for a bgp
check. -/
theorem C8_amended_timeout_gives_error_result_where_caught_witness :
    (1 : Int) ≠ 0 ∧ ("default" : String) ≠ "" ∧ (["4.26.1F"] : List String) ≠ []
    ∧ (verify_bgp_ipv4_unicast_state "leaf1" (.error (.socketTimeout "timed out"))).res
      = .ok ⟨"leaf1", "verify_bgp_ipv4_unicast_state", "error", ["timed out"]⟩ :=
  ⟨by decide, by decide, by decide,
    (C8_amended_timeout_gives_error_result_where_caught "leaf1" "default" "timed out" 1
      ["4.26.1F"] (by decide) (by decide) (by decide)).1⟩
